import Mathlib

/-!
Shallow embedding of `preprocessy/resampling/_split.py` (class `Split`):
the data model (pandas DataFrames/Series as lists of rows, Python values as a
tagged union), the validation routine `__validate_input`, and the splitting
routine `train_test_split`, together with theorems settling the specification
claims about them.

Python floats are modelled by an arbitrary linear ordered field `α`
(instantiated at `ℚ` for executable witnesses and at `ℝ` where the code's
`np.sqrt` matters); Python ints by `ℤ`; table cells by an arbitrary type `β`.
-/

/-- A pandas DataFrame: named columns and row-major cell lists
(`rows = samples`, `cols = named features`). The pandas integer row index is
not modelled; `reset_index(drop=True)` is therefore a no-op here. -/
structure DataFrame (β : Type) where
  cols : List String
  rows : List (List β)
deriving DecidableEq

/-- A pandas Series: an optional name (`None` or a string) and its values. -/
structure Series (β : Type) where
  name : Option String
  data : List β
deriving DecidableEq

/-- A Python value as it can appear in the `params` mapping or in the fields of
a `Split` instance: `None`, an int, a float, a DataFrame or a Series. -/
inductive PyVal (α β : Type) where
  | noneV
  | intV (n : ℤ)
  | floatV (x : α)
  | dfV (d : DataFrame β)
  | seriesV (s : Series β)
deriving DecidableEq

/-- The exceptions the code can raise. Each constructor corresponds to one
raise site of `_split.py` (or to an error Python itself raises there); the
spec's taxonomy maps onto them as follows: `MissingInputError` = line 66,
`TypeMismatchError` = lines 69, 84, 92, 96, 98, 160, `ShapeMismatchError` =
line 78, `ValueRangeError` = lines 107, 112, 120/124, 137/141,
`MissingNameError` = line 239. `attributeError` models Python's
AttributeError from `y.shape` on a shapeless object (line 77), and
`isinstanceArg2` the TypeError Python raises for `isinstance(x, y)` with a
non-type second argument (line 97); `truthAmbiguous` models pandas raising on
`bool(DataFrame)`. -/
inductive PyError where
  | missingInput
  | typeMismatchX
  | shapeMismatchY
  | typeMismatchY
  | typeMismatchTestSize
  | typeMismatchTrainSize
  | isinstanceArg2
  | typeMismatchSizeKinds
  | valueRangeSumOne
  | valueRangeSumN
  | valueRangeTestSize
  | valueRangeTrainSize
  | typeMismatchRandomState
  | missingName
  | attributeError
  | truthAmbiguous
deriving DecidableEq

namespace PyVal

/-- `v is None`. -/
def isNone : PyVal α β → Bool
  | .noneV => true
  | _ => false

/-- `isinstance(v, int)`. -/
def isInt : PyVal α β → Bool
  | .intV _ => true
  | _ => false

/-- `isinstance(v, float)`. -/
def isFloat : PyVal α β → Bool
  | .floatV _ => true
  | _ => false

/-- `isinstance(v, pd.core.frame.DataFrame)`. -/
def isDF : PyVal α β → Bool
  | .dfV _ => true
  | _ => false

/-- `isinstance(v, pd.core.series.Series)`. -/
def isSeries : PyVal α β → Bool
  | .seriesV _ => true
  | _ => false

/-- Numeric value of an int or float (junk `0` otherwise; only used under
guards that established the kind). -/
def toNum [LinearOrderedField α] : PyVal α β → α
  | .intV n => (n : α)
  | .floatV x => x
  | _ => 0

/-- Integer value of an int (junk `0` otherwise). -/
def toZ : PyVal α β → ℤ
  | .intV n => n
  | _ => 0

/-- Underlying DataFrame of a `dfV` (junk empty frame otherwise; only used
after `isDF` was checked). -/
def getDF : PyVal α β → DataFrame β
  | .dfV d => d
  | _ => ⟨[], []⟩

end PyVal

/-- Python truthiness, `bool(v)`: `None`/`0`/`0.0` are falsy; pandas raises
for DataFrames and Series ("truth value is ambiguous"). -/
def pyTruth [LinearOrderedField α] : PyVal α β → Except PyError Bool
  | .noneV => .ok false
  | .intV n => .ok (decide (n ≠ 0))
  | .floatV x => .ok (decide (x ≠ 0))
  | .dfV _ => .error .truthAmbiguous
  | .seriesV _ => .error .truthAmbiguous

/-- `v.shape[0]`: row count of a DataFrame or Series; Python raises
AttributeError for values without a `.shape` (ints, floats, None). -/
def pyShape0 : PyVal α β → Except PyError ℤ
  | .dfV d => .ok d.rows.length
  | .seriesV s => .ok s.data.length
  | _ => .error .attributeError

/-- Modelled from the spec: the external collaborator
`num_of_samples(table)` (imported from `preprocessy.utils`, whose source is
not part of this tree) "returns the row count of a tabular input" and never
raises on a valid table. -/
def num_of_samples (d : DataFrame β) : ℕ := d.rows.length

/-- Lines 88-157 of `__validate_input`: resolution of `test_size`/`train_size`.
`npSqrt` models the external `np.sqrt` (numpy); `Xd` is the already
type-checked feature frame, `y` the target field. Returns the pair
`(test_size, train_size)` the instance fields are set to, or the raised error.

The `if/elif` chain tests truthiness, so sizes equal to `0`/`0.0` select the
same branch as unset ones. In the both-given branch, lines 89-96 test
`not isinstance(v, int) or not isinstance(v, float)`, which no Python value
can falsify (nothing is an instance of both `int` and `float`), so that
branch always raises; were it passed, line 97's
`isinstance(self.test_size, self.train_size)` would itself raise a TypeError
because its second argument is a number, not a type. The sum checks of lines
103-114 are translated below them for completeness although they are
unreachable in Python. -/
def resolve_sizes [LinearOrderedField α] (npSqrt : ℕ → α) (Xd : DataFrame β)
    (y ts tr : PyVal α β) : Except PyError (PyVal α β × PyVal α β) := do
  let n : ℕ := num_of_samples Xd
  let tB ← pyTruth ts
  if tB then do
    let trB ← pyTruth tr
    if trB then do
      -- lines 88-114: both sizes given
      if !ts.isInt || !ts.isFloat then throw .typeMismatchTestSize
      if !tr.isInt || !tr.isFloat then throw .typeMismatchTrainSize
      throw .isinstanceArg2
      if ts.isFloat && decide (ts.toNum + tr.toNum ≠ 1) then
        throw .valueRangeSumOne
      else if ts.isInt && decide (ts.toNum + tr.toNum ≠ (n : α)) then
        throw .valueRangeSumN
      pure (ts, tr)
    else do
      -- lines 116-131: only test_size truthy
      if ts.isFloat && (decide (ts.toNum < 0) || decide (ts.toNum > 1)) then
        throw .valueRangeTestSize
      if ts.isInt && (decide (ts.toZ < 0) || decide (ts.toZ > (n : ℤ))) then
        throw .valueRangeTestSize
      pure (ts, if ts.isFloat then .floatV (1 - ts.toNum) else .intV ((n : ℤ) - ts.toZ))
  else do
    let trB ← pyTruth tr
    if trB then do
      -- lines 133-148: only train_size truthy
      if tr.isFloat && (decide (tr.toNum < 0) || decide (tr.toNum > 1)) then
        throw .valueRangeTrainSize
      if tr.isInt && (decide (tr.toZ < 0) || decide (tr.toZ > (n : ℤ))) then
        throw .valueRangeTrainSize
      pure ((if tr.isFloat then .floatV (1 - tr.toNum) else .intV ((n : ℤ) - tr.toZ)), tr)
    else
      -- lines 150-157: neither size truthy
      if y.isNone then
        pure (.floatV (1 / 5 : α), .floatV (4 / 5 : α))
      else
        let features : ℕ := Xd.cols.length
        pure (.floatV (1 / npSqrt features), .floatV (1 - 1 / npSqrt features))

/-- Lines 65-160, `Split.__validate_input`: checks `X`, then `y` (its shape
before its type, as in the code), resolves the sizes, and finally checks
`random_state`. Returns the resolved `(test_size, train_size)`. (In Python
the random_state failure leaves the size fields already mutated on the
instance; the error value here does not carry them, and no claim observes an
instance after a failed call.) -/
def validate_input [LinearOrderedField α] (npSqrt : ℕ → α)
    (X y ts tr rs : PyVal α β) : Except PyError (PyVal α β × PyVal α β) := do
  if X.isNone then throw .missingInput
  if !X.isDF then throw .typeMismatchX
  if !y.isNone then do
    let sh ← pyShape0 y
    if decide ((num_of_samples X.getDF : ℤ) ≠ sh) then throw .shapeMismatchY
    if !y.isSeries then throw .typeMismatchY
  let p ← resolve_sizes npSqrt X.getDF y ts tr
  if !rs.isInt then throw .typeMismatchRandomState
  pure p

/-- Modelled from the spec: one step of the pseudo-random generator behind
`np.random` ("a fixed, documented pseudo-random algorithm"). The spec fixes
only that the stream is a deterministic function of the seed, so a 64-bit
linear congruential generator stands in for the Mersenne Twister. -/
def lcgNext (x : ℕ) : ℕ := (6364136223846793005 * x + 1442695040888963407) % (2 ^ 64)

/-- Fisher-Yates draw: repeatedly pick a pseudo-random position of the
remaining pool and move its element to the output. `fuel` is the pool size. -/
def drawAux : ℕ → ℕ → List ℕ → List ℕ
  | 0, _, _ => []
  | fuel + 1, st, l =>
    let st' := lcgNext st
    let i := st' % l.length
    l.getD i 0 :: drawAux fuel st' (l.eraseIdx i)

/-- Modelled from the spec: `np.random.seed(seed)` followed by
`np.random.permutation(n)` "draws a uniformly random permutation of row
indices [0, n) using the seeded generator" - a deterministic function of
`(seed, n)` whose value is a permutation of `0..n-1`. -/
def npPermutation (seed n : ℕ) : List ℕ := drawAux n (lcgNext seed) (List.range n)

/-- Python `int(x)` on a float: truncation toward zero. -/
def pyInt [LinearOrderedField α] [FloorRing α] (x : α) : ℤ :=
  if x < 0 then -⌊-x⌋ else ⌊x⌋

/-- Position at which the Python slice bound `k` lands in a list of length
`len`: negative bounds count from the end; both directions clamp. -/
def sliceIdx (k : ℤ) (len : ℕ) : ℕ :=
  if k < 0 then ((len : ℤ) + k).toNat else k.toNat

/-- `df.iloc[k:]` on the row list. -/
def ilocFrom (k : ℤ) (l : List (List β)) : List (List β) := l.drop (sliceIdx k l.length)

/-- `df.iloc[:k]` on the row list. -/
def ilocTo (k : ℤ) (l : List (List β)) : List (List β) := l.take (sliceIdx k l.length)

/-- `pd.concat([X, y], axis=1)` for a frame and an aligned series: the series
becomes one more column, labelled with its name. -/
def pdConcat (Xd : DataFrame β) (ys : Series β) : DataFrame β :=
  ⟨Xd.cols ++ [ys.name.getD ""], List.zipWith (fun r v => r ++ [v]) Xd.rows ys.data⟩

/-- Lines 226-228: `self.df.iloc[np.random.permutation(len(self.df))]`
followed by `reset_index(drop=True)`. -/
def shuffledOf (seed : ℕ) (d : DataFrame β) : DataFrame β :=
  ⟨d.cols, (npPermutation seed d.rows.length).map (fun i => d.rows.getD i [])⟩

/-- Lines 229-235: the partition of the shuffled frame into `(train, test)`.
A float `test_size` is scaled by the row count and truncated; an int one is
used as the slice bound directly. -/
def blocksOf [LinearOrderedField α] [FloorRing α] (ts : PyVal α β) (df : DataFrame β) :
    DataFrame β × DataFrame β :=
  if ts.isFloat then
    let index : ℤ := pyInt (ts.toNum * ((df.rows.length : ℕ) : α))
    (⟨df.cols, ilocFrom index df.rows⟩, ⟨df.cols, ilocTo index df.rows⟩)
  else
    (⟨df.cols, ilocFrom ts.toZ df.rows⟩, ⟨df.cols, ilocTo ts.toZ df.rows⟩)

/-- `train[name]`: select a column as a Series (first matching label; the
target name is always present here because the target was concatenated). -/
def colSelect [Inhabited β] (nm : String) (d : DataFrame β) : Series β :=
  ⟨some nm, d.rows.map (fun r => r.getD (d.cols.indexOf nm) default)⟩

/-- `train.drop([name], axis=1)`: remove every column labelled `name`. -/
def colDrop (nm : String) (d : DataFrame β) : DataFrame β :=
  ⟨d.cols.filter (fun c => c ≠ nm),
   d.rows.map (fun r => ((d.cols.zip r).filter (fun cv => cv.1 ≠ nm)).map Prod.snd)⟩

/-- `if not self.y.name:` - a missing or empty name is falsy. -/
def nameFalsy : Option String → Bool
  | none => true
  | some s => s = ""

/-- The fields `Split.__init__` creates on an instance. -/
structure SplitState (α β : Type) where
  df : PyVal α β
  X : PyVal α β
  y : PyVal α β
  test_size : PyVal α β
  train_size : PyVal α β
  random_state : PyVal α β
deriving DecidableEq

/-- A fresh `Split()` instance: everything `None`, `random_state = 69`. -/
def freshSplit : SplitState α β :=
  ⟨.noneV, .noneV, .noneV, .noneV, .noneV, .intV 69⟩

/-- The caller's `params` mapping: an association list keyed by strings. -/
abbrev Params (α β : Type) := List (String × PyVal α β)

/-- `params[k]` when `k in params.keys()`, else `none`. -/
def findKey (k : String) : Params α β → Option (PyVal α β)
  | [] => none
  | (k', v) :: rest => if k = k' then some v else findKey k rest

/-- `params[k] = v`: overwrite an existing key or append a new one. -/
def setKey (k : String) (v : PyVal α β) (p : Params α β) : Params α β :=
  if (p.map Prod.fst).contains k then
    p.map (fun kv => if kv.1 = k then (k, v) else kv)
  else p ++ [(k, v)]

/-- Lines 206-215: each recognized key present in `params` overwrites the
corresponding instance field; absent keys leave the field untouched. -/
def applyParams (s : SplitState α β) (p : Params α β) : SplitState α β :=
  let s1 := match findKey "X" p with | some v => { s with X := v } | none => s
  let s2 := match findKey "y" p with | some v => { s1 with y := v } | none => s1
  let s3 := match findKey "test_size" p with
    | some v => { s2 with test_size := v } | none => s2
  let s4 := match findKey "train_size" p with
    | some v => { s3 with train_size := v } | none => s3
  match findKey "random_state" p with
  | some v => { s4 with random_state := v } | none => s4

deriving instance DecidableEq for Except

/-- What one call to `train_test_split` does after the fields were updated
from `params`: the outcome (raised error or success), the new `self.df` when
the shuffle was reached, the final size fields, and the key/value pairs
written into `params` (empty unless the call succeeded - the code writes
results only after the last raise site). -/
structure CallOutcome (α β : Type) where
  result : Except PyError Unit
  newDf : Option (DataFrame β)
  test_size : PyVal α β
  train_size : PyVal α β
  writes : List (String × PyVal α β)
deriving DecidableEq

/-- Lines 217-253 as a function of the five instance fields: validate, seed
and shuffle, partition, then either separate the target column of each block
(keys `X_train`, `X_test`, `y_train`, `y_test`) or emit the blocks themselves
(keys `train`, `test`). `np.random.seed` needs a non-negative seed, hence the
`natAbs`. -/
def callCore [LinearOrderedField α] [FloorRing α] [Inhabited β] (npSqrt : ℕ → α)
    (X y ts tr rs : PyVal α β) : CallOutcome α β :=
  match validate_input npSqrt X y ts tr rs with
  | .error e => ⟨.error e, none, ts, tr, []⟩
  | .ok (ts', tr') =>
    let Xd := X.getDF
    let dfJ : DataFrame β := match y with
      | .seriesV ys => pdConcat Xd ys
      | _ => Xd
    let dfP := shuffledOf rs.toZ.natAbs dfJ
    let train := (blocksOf ts' dfP).1
    let test := (blocksOf ts' dfP).2
    match y with
    | .seriesV ys =>
      if nameFalsy ys.name then ⟨.error .missingName, some dfP, ts', tr', []⟩
      else
        let nm := ys.name.getD ""
        ⟨.ok (), some dfP, ts', tr',
          [("X_train", .dfV (colDrop nm train)), ("X_test", .dfV (colDrop nm test)),
           ("y_train", .seriesV (colSelect nm train)),
           ("y_test", .seriesV (colSelect nm test))]⟩
    | _ => ⟨.ok (), some dfP, ts', tr', [("train", .dfV train), ("test", .dfV test)]⟩

/-- `Split.train_test_split(params)`: update the instance fields from
`params`, run the call, and write the results back into `params`. Returns the
outcome, the mutated instance, and the mutated `params`. -/
def train_test_split [LinearOrderedField α] [FloorRing α] [Inhabited β] (npSqrt : ℕ → α)
    (s0 : SplitState α β) (p : Params α β) :
    Except PyError Unit × SplitState α β × Params α β :=
  let s := applyParams s0 p
  let o := callCore npSqrt s.X s.y s.test_size s.train_size s.random_state
  (o.result,
   { s with
      df := match o.newDf with | some d => .dfV d | none => s.df,
      test_size := o.test_size, train_size := o.train_size },
   o.writes.foldl (fun d kv => setKey kv.1 kv.2 d) p)

/-- The spec's scenario feature table: a 10-row, 2-column numeric frame. -/
def Xten : DataFrame ℤ :=
  ⟨["a", "b"],
   [[0, 1], [2, 3], [4, 5], [6, 7], [8, 9],
    [10, 11], [12, 13], [14, 15], [16, 17], [18, 19]]⟩

/-- The spec's scenario target: a named series of 10 labels. -/
def yten : Series ℤ := ⟨some "label", [0, 1, 0, 1, 0, 1, 0, 1, 0, 1]⟩

/-- A 100-row, 1-column frame for the integral complement example. -/
def X100 : DataFrame ℤ := ⟨["a"], (List.range 100).map (fun i => [(i : ℤ)])⟩

/-- Stand-in for `np.sqrt` in rational instantiations whose runs never reach
the with-target default branch. -/
def sqrtZero : ℕ → ℚ := fun _ => 0

/-- A fresh `Split()` instance at the executable instantiation. -/
def freshQ : SplitState ℚ ℤ := freshSplit

theorem exceptBind_ok {γ δ : Type} (a : γ) (f : γ → Except PyError δ) :
    (Except.ok a >>= f) = f a := rfl

theorem exceptBind_error {γ δ : Type} (e : PyError) (f : γ → Except PyError δ) :
    ((Except.error e : Except PyError γ) >>= f) = Except.error e := rfl

theorem exceptThrow {γ : Type} (e : PyError) :
    (throw e : Except PyError γ) = Except.error e := rfl

theorem exceptPure {γ : Type} (a : γ) :
    (pure a : Except PyError γ) = Except.ok a := rfl

theorem getD_cons_eraseIdx_perm :
    ∀ (l : List ℕ) (i : ℕ), i < l.length → List.Perm (l.getD i 0 :: l.eraseIdx i) l
  | a :: l, 0, _ => by simp [List.eraseIdx]
  | a :: l, i + 1, h => by
    have hi : i < l.length := by simpa using h
    have tail := getD_cons_eraseIdx_perm l i hi
    simpa [List.eraseIdx, List.getD] using
      (List.Perm.swap a (l.getD i 0) (l.eraseIdx i)).trans (tail.cons a)

theorem drawAux_perm :
    ∀ (fuel st : ℕ) (l : List ℕ), l.length = fuel → List.Perm (drawAux fuel st l) l := by
  intro fuel
  induction fuel with
  | zero =>
    intro st l h
    rw [List.length_eq_zero] at h
    subst h
    simp [drawAux]
  | succ fuel ih =>
    intro st l h
    have hpos : 0 < l.length := by omega
    have hi : lcgNext st % l.length < l.length := Nat.mod_lt _ hpos
    have hlen : (l.eraseIdx (lcgNext st % l.length)).length = fuel := by
      rw [List.length_eraseIdx]
      simp [hi]
      omega
    have tail := ih (lcgNext st) (l.eraseIdx (lcgNext st % l.length)) hlen
    exact (tail.cons _).trans (getD_cons_eraseIdx_perm l _ hi)

theorem npPermutation_perm (seed n : ℕ) :
    List.Perm (npPermutation seed n) (List.range n) :=
  drawAux_perm n (lcgNext seed) (List.range n) (List.length_range n)

theorem map_getD_range {ρ : Type} :
    ∀ (l : List ρ) (d : ρ), (List.range l.length).map (fun i => l.getD i d) = l
  | [], _ => rfl
  | a :: l, d => by
    rw [List.length_cons, List.range_succ_eq_map, List.map_cons, List.map_map]
    simp only [List.getD_cons_zero, List.cons.injEq, true_and]
    have : ((fun i => (a :: l).getD i d) ∘ Nat.succ) = fun i => l.getD i d := by
      funext i
      simp [List.getD]
    rw [this, map_getD_range l d]

theorem shuffledOf_rows_perm (seed : ℕ) (d : DataFrame β) :
    List.Perm (shuffledOf seed d).rows d.rows := by
  have h := (npPermutation_perm seed d.rows.length).map (fun i => d.rows.getD i [])
  rw [map_getD_range d.rows []] at h
  exact h

theorem shuffledOf_length (seed : ℕ) (d : DataFrame β) :
    (shuffledOf seed d).rows.length = d.rows.length :=
  (shuffledOf_rows_perm seed d).length_eq

theorem blocksOf_eq [LinearOrderedField α] [FloorRing α] (ts : PyVal α β) (df : DataFrame β) :
    ∃ k, (blocksOf ts df).1 = ⟨df.cols, df.rows.drop k⟩ ∧
      (blocksOf ts df).2 = ⟨df.cols, df.rows.take k⟩ := by
  unfold blocksOf ilocFrom ilocTo
  split
  · exact ⟨_, rfl, rfl⟩
  · exact ⟨_, rfl, rfl⟩

/-- C2: lines 226-235 partition the (joined) input into two blocks: the row
counts of train and test sum to the input's row count, the two blocks as
position sets are a take/drop split of the shuffled frame (hence disjoint and
exhaustive), and together their rows are exactly the rows of the input as a
multiset. -/
theorem split_blocks_partition [LinearOrderedField α] [FloorRing α]
    (ts : PyVal α β) (seed : ℕ) (d : DataFrame β) :
    (blocksOf ts (shuffledOf seed d)).1.rows.length
        + (blocksOf ts (shuffledOf seed d)).2.rows.length = d.rows.length
    ∧ List.Perm
        ((blocksOf ts (shuffledOf seed d)).2.rows ++ (blocksOf ts (shuffledOf seed d)).1.rows)
        d.rows
    ∧ ∃ k, (blocksOf ts (shuffledOf seed d)).2.rows = (shuffledOf seed d).rows.take k
        ∧ (blocksOf ts (shuffledOf seed d)).1.rows = (shuffledOf seed d).rows.drop k := by
  obtain ⟨k, h1, h2⟩ := blocksOf_eq ts (shuffledOf seed d)
  refine ⟨?_, ?_, k, by rw [h2], by rw [h1]⟩
  · rw [h1, h2]
    have := shuffledOf_length seed d
    simp only [List.length_drop, List.length_take]
    omega
  · rw [h1, h2]
    have : (shuffledOf seed d).rows.take k ++ (shuffledOf seed d).rows.drop k
        = (shuffledOf seed d).rows := List.take_append_drop k _
    simp only [this]
    exact shuffledOf_rows_perm seed d

/-- C3: determinism - the outcome of a call (raised error or success, and the
key/value pairs written into `params`) is a function of the five effective
field values `X`, `y`, `test_size`, `train_size`, `random_state` after the
`params` update; two calls agreeing on them behave identically. -/
theorem split_deterministic [LinearOrderedField α] [FloorRing α] [Inhabited β]
    (npSqrt : ℕ → α) (s1 s2 : SplitState α β) (p1 p2 : Params α β)
    (hX : (applyParams s1 p1).X = (applyParams s2 p2).X)
    (hy : (applyParams s1 p1).y = (applyParams s2 p2).y)
    (ht : (applyParams s1 p1).test_size = (applyParams s2 p2).test_size)
    (htr : (applyParams s1 p1).train_size = (applyParams s2 p2).train_size)
    (hr : (applyParams s1 p1).random_state = (applyParams s2 p2).random_state) :
    (train_test_split npSqrt s1 p1).1 = (train_test_split npSqrt s2 p2).1
    ∧ (callCore npSqrt (applyParams s1 p1).X (applyParams s1 p1).y
        (applyParams s1 p1).test_size (applyParams s1 p1).train_size
        (applyParams s1 p1).random_state).writes
      = (callCore npSqrt (applyParams s2 p2).X (applyParams s2 p2).y
          (applyParams s2 p2).test_size (applyParams s2 p2).train_size
          (applyParams s2 p2).random_state).writes := by
  have hc : callCore npSqrt (applyParams s1 p1).X (applyParams s1 p1).y
      (applyParams s1 p1).test_size (applyParams s1 p1).train_size
      (applyParams s1 p1).random_state
      = callCore npSqrt (applyParams s2 p2).X (applyParams s2 p2).y
        (applyParams s2 p2).test_size (applyParams s2 p2).train_size
        (applyParams s2 p2).random_state := by
    rw [hX, hy, ht, htr, hr]
  constructor
  · simp only [train_test_split]
    rw [hc]
  · rw [hc]

theorem split_deterministic_witness :
    (train_test_split sqrtZero freshQ [("X", .dfV Xten)]).1
      = (train_test_split sqrtZero freshQ [("X", .dfV Xten)]).1
    ∧ (callCore sqrtZero (applyParams freshQ [("X", .dfV Xten)]).X
        (applyParams freshQ [("X", .dfV Xten)]).y
        (applyParams freshQ [("X", .dfV Xten)]).test_size
        (applyParams freshQ [("X", .dfV Xten)]).train_size
        (applyParams freshQ [("X", .dfV Xten)]).random_state).writes
      = (callCore sqrtZero (applyParams freshQ [("X", .dfV Xten)]).X
          (applyParams freshQ [("X", .dfV Xten)]).y
          (applyParams freshQ [("X", .dfV Xten)]).test_size
          (applyParams freshQ [("X", .dfV Xten)]).train_size
          (applyParams freshQ [("X", .dfV Xten)]).random_state).writes :=
  split_deterministic sqrtZero freshQ freshQ [("X", .dfV Xten)] [("X", .dfV Xten)]
    rfl rfl rfl rfl rfl

theorem callCore_error_writes [LinearOrderedField α] [FloorRing α] [Inhabited β]
    (npSqrt : ℕ → α) (X y ts tr rs : PyVal α β) (e : PyError)
    (h : (callCore npSqrt X y ts tr rs).result = .error e) :
    (callCore npSqrt X y ts tr rs).writes = [] := by
  unfold callCore at h ⊢
  cases hv : validate_input npSqrt X y ts tr rs with
  | error e' => rfl
  | ok p =>
    obtain ⟨ts', tr'⟩ := p
    dsimp only at h ⊢
    cases y with
    | seriesV ys =>
      dsimp only at h ⊢
      cases hn : nameFalsy ys.name <;> simp [hn, hv] at h ⊢
    | noneV => simp_all
    | intV n => simp_all
    | floatV x => simp_all
    | dfV d => simp_all

/-- C6: atomicity on failure - whenever `train_test_split` raises, the
caller's `params` mapping comes back unchanged, so it receives none of the
output keys; results are written only after the last raise site. -/
theorem error_leaves_params [LinearOrderedField α] [FloorRing α] [Inhabited β]
    (npSqrt : ℕ → α) (s0 : SplitState α β) (p : Params α β) (e : PyError)
    (h : (train_test_split npSqrt s0 p).1 = .error e) :
    (train_test_split npSqrt s0 p).2.2 = p := by
  simp only [train_test_split] at h ⊢
  rw [callCore_error_writes npSqrt _ _ _ _ _ e h]
  rfl

theorem error_leaves_params_witness :
    (train_test_split sqrtZero freshQ ([] : Params ℚ ℤ)).1 = .error .missingInput
    ∧ (train_test_split sqrtZero freshQ ([] : Params ℚ ℤ)).2.2 = [] :=
  ⟨rfl, error_leaves_params sqrtZero freshQ [] .missingInput rfl⟩

/-- C8: lines 65-72 - with the effective `X` absent (`None`) the call raises
the missing-input error, and with `X` present but not a DataFrame it raises
the type-mismatch error, whatever the other parameters hold (these checks
run before every other one). -/
theorem missing_or_invalid_X [LinearOrderedField α] [FloorRing α] [Inhabited β]
    (npSqrt : ℕ → α) (s0 : SplitState α β) (p : Params α β) :
    ((applyParams s0 p).X = .noneV →
      (train_test_split npSqrt s0 p).1 = .error .missingInput)
    ∧ ((applyParams s0 p).X.isNone = false → (applyParams s0 p).X.isDF = false →
      (train_test_split npSqrt s0 p).1 = .error .typeMismatchX) := by
  constructor
  · intro hX
    simp only [train_test_split]
    rw [hX]
    rfl
  · intro h1 h2
    simp only [train_test_split]
    cases hX : (applyParams s0 p).X with
    | noneV => rw [hX] at h1; simp [PyVal.isNone] at h1
    | dfV d => rw [hX] at h2; simp [PyVal.isDF] at h2
    | intV n => rfl
    | floatV x => rfl
    | seriesV s => rfl

theorem missing_or_invalid_X_witness :
    (applyParams freshQ ([] : Params ℚ ℤ)).X = .noneV
    ∧ (train_test_split sqrtZero freshQ ([] : Params ℚ ℤ)).1 = .error .missingInput
    ∧ (applyParams freshQ [("X", .intV 5)]).X.isNone = false
    ∧ (applyParams freshQ [("X", .intV 5)]).X.isDF = false
    ∧ (train_test_split sqrtZero freshQ [("X", .intV 5)]).1 = .error .typeMismatchX :=
  ⟨rfl, (missing_or_invalid_X sqrtZero freshQ []).1 rfl, rfl, rfl,
    (missing_or_invalid_X sqrtZero freshQ [("X", .intV 5)]).2 rfl rfl⟩

theorem resolve_sizes_ts_int_zero [LinearOrderedField α] (npSqrt : ℕ → α)
    (Xd : DataFrame β) (y tr : PyVal α β) :
    resolve_sizes npSqrt Xd y (.intV 0) tr = resolve_sizes npSqrt Xd y .noneV tr := by
  simp only [resolve_sizes, pyTruth]
  rfl

theorem resolve_sizes_ts_float_zero [LinearOrderedField α] (npSqrt : ℕ → α)
    (Xd : DataFrame β) (y tr : PyVal α β) :
    resolve_sizes npSqrt Xd y (.floatV 0) tr = resolve_sizes npSqrt Xd y .noneV tr := by
  have h0 : (decide ((0 : α) ≠ 0)) = false := by simp
  simp only [resolve_sizes, pyTruth, h0]
  rfl

theorem resolve_sizes_tr_int_zero [LinearOrderedField α] (npSqrt : ℕ → α)
    (Xd : DataFrame β) (y ts : PyVal α β) :
    resolve_sizes npSqrt Xd y ts (.intV 0) = resolve_sizes npSqrt Xd y ts .noneV := by
  simp only [resolve_sizes, pyTruth]
  rfl

theorem resolve_sizes_tr_float_zero [LinearOrderedField α] (npSqrt : ℕ → α)
    (Xd : DataFrame β) (y ts : PyVal α β) :
    resolve_sizes npSqrt Xd y ts (.floatV 0) = resolve_sizes npSqrt Xd y ts .noneV := by
  have h0 : (decide ((0 : α) ≠ 0)) = false := by simp
  simp only [resolve_sizes, pyTruth, h0]
  rfl

/-- C10: a size supplied as `0` or `0.0` behaves exactly like an unset one,
because the branches test truthiness - validation is unchanged when such a
value is replaced by `None`; concretely, `test_size = 0` with no target
resolves to the defaults `(0.2, 0.8)` rather than an empty test block, and
`test_size = 0` with `train_size = 10` on a 10-row frame takes the
train-only branch (deriving `test_size = 10 - 10 = 0`) instead of the
both-given validation. -/
theorem zero_size_acts_unset [LinearOrderedField α] (npSqrt : ℕ → α)
    (X y ts tr rs : PyVal α β) :
    (validate_input npSqrt X y (.intV 0) tr rs = validate_input npSqrt X y .noneV tr rs)
    ∧ (validate_input npSqrt X y (.floatV 0) tr rs = validate_input npSqrt X y .noneV tr rs)
    ∧ (validate_input npSqrt X y ts (.intV 0) rs = validate_input npSqrt X y ts .noneV rs)
    ∧ (validate_input npSqrt X y ts (.floatV 0) rs = validate_input npSqrt X y ts .noneV rs)
    ∧ validate_input sqrtZero (.dfV Xten) .noneV (.intV 0) .noneV (.intV 69)
        = .ok (.floatV (1 / 5), .floatV (4 / 5))
    ∧ validate_input sqrtZero (.dfV Xten) .noneV (.intV 0) (.intV 10) (.intV 69)
        = .ok (.intV 0, .intV 10) := by
  refine ⟨?_, ?_, ?_, ?_, ?_, ?_⟩
  · simp only [validate_input, resolve_sizes_ts_int_zero]
  · simp only [validate_input, resolve_sizes_ts_float_zero]
  · simp only [validate_input, resolve_sizes_tr_int_zero]
  · simp only [validate_input, resolve_sizes_tr_float_zero]
  · with_unfolding_all decide
  · with_unfolding_all decide

/-- C4 counterexample: a `test_size` explicitly supplied as `0.0` is NOT
complemented to `train_size = 1.0` - it is treated as unset and the defaults
apply, because the branch tests truthiness. -/
theorem zero_test_size_not_complemented :
    validate_input sqrtZero (.dfV Xten) .noneV (.floatV 0) .noneV (.intV 69)
      ≠ .ok (.floatV 0, .floatV 1)
    ∧ validate_input sqrtZero (.dfV Xten) .noneV (.floatV 0) .noneV (.intV 69)
      = .ok (.floatV (1 / 5), .floatV (4 / 5)) := by
  constructor
  · with_unfolding_all decide
  · with_unfolding_all decide

theorem callCore_of_validate_error [LinearOrderedField α] [FloorRing α] [Inhabited β]
    (npSqrt : ℕ → α) (X y ts tr rs : PyVal α β) (e : PyError)
    (hv : validate_input npSqrt X y ts tr rs = .error e) :
    callCore npSqrt X y ts tr rs = ⟨.error e, none, ts, tr, []⟩ := by
  unfold callCore
  rw [hv]

/-- C4 (amended): a size parameter that is the only one set and is truthy is
range-checked and the other derived as its complement - a fractional `q` with
`0 < q ≤ 1` yields `1 - q`, a nonzero integral `m` with `0 ≤ m ≤ n` yields
`n - m`; a truthy value outside its range (fractional below 0 or above 1,
integral below 0 or above `n`, for either parameter) raises the range error,
with the shuffle never reached. (Zero values take the defaulting branch
instead; see the counterexample.) -/
theorem single_size_complemented [LinearOrderedField α] [FloorRing α] [Inhabited β]
    (npSqrt : ℕ → α) (Xd : DataFrame β) (q : α) (m : ℤ) :
    (0 < q → q ≤ 1 →
      validate_input npSqrt (.dfV Xd) .noneV (.floatV q) .noneV (.intV 69)
        = .ok (.floatV q, .floatV (1 - q)))
    ∧ (m ≠ 0 → 0 ≤ m → m ≤ (num_of_samples Xd : ℤ) →
      validate_input npSqrt (.dfV Xd) .noneV (.intV m) .noneV (.intV 69)
        = .ok (.intV m, .intV ((num_of_samples Xd : ℤ) - m)))
    ∧ (0 < q → q ≤ 1 →
      validate_input npSqrt (.dfV Xd) .noneV .noneV (.floatV q) (.intV 69)
        = .ok (.floatV (1 - q), .floatV q))
    ∧ (m ≠ 0 → 0 ≤ m → m ≤ (num_of_samples Xd : ℤ) →
      validate_input npSqrt (.dfV Xd) .noneV .noneV (.intV m) (.intV 69)
        = .ok (.intV ((num_of_samples Xd : ℤ) - m), .intV m))
    ∧ ((q < 0 ∨ 1 < q) →
      validate_input npSqrt (.dfV Xd) .noneV (.floatV q) .noneV (.intV 69)
          = .error .valueRangeTestSize
        ∧ (callCore npSqrt (.dfV Xd) .noneV (.floatV q) .noneV (.intV 69)).newDf = none)
    ∧ ((m < 0 ∨ (num_of_samples Xd : ℤ) < m) →
      validate_input npSqrt (.dfV Xd) .noneV (.intV m) .noneV (.intV 69)
          = .error .valueRangeTestSize
        ∧ (callCore npSqrt (.dfV Xd) .noneV (.intV m) .noneV (.intV 69)).newDf = none)
    ∧ ((q < 0 ∨ 1 < q) →
      validate_input npSqrt (.dfV Xd) .noneV .noneV (.floatV q) (.intV 69)
          = .error .valueRangeTrainSize
        ∧ (callCore npSqrt (.dfV Xd) .noneV .noneV (.floatV q) (.intV 69)).newDf = none)
    ∧ ((m < 0 ∨ (num_of_samples Xd : ℤ) < m) →
      validate_input npSqrt (.dfV Xd) .noneV .noneV (.intV m) (.intV 69)
          = .error .valueRangeTrainSize
        ∧ (callCore npSqrt (.dfV Xd) .noneV .noneV (.intV m) (.intV 69)).newDf = none) := by
  refine ⟨?_, ?_, ?_, ?_, ?_, ?_, ?_, ?_⟩
  · intro h0 h1
    have e1 : q ≠ 0 := ne_of_gt h0
    have e2 : ¬ q < 0 := not_lt.mpr h0.le
    have e3 : ¬ 1 < q := not_lt.mpr h1
    simp [validate_input, resolve_sizes, pyTruth, PyVal.isNone, PyVal.isDF,
      PyVal.isSeries, PyVal.isInt, PyVal.isFloat, PyVal.toNum, PyVal.toZ,
      PyVal.getDF, e1, e2, e3]
    rfl
  · intro hm0 hml hmu
    have e2 : ¬ m < 0 := not_lt.mpr hml
    have e3 : ¬ (num_of_samples Xd : ℤ) < m := not_lt.mpr hmu
    simp [validate_input, resolve_sizes, pyTruth, PyVal.isNone, PyVal.isDF,
      PyVal.isSeries, PyVal.isInt, PyVal.isFloat, PyVal.toNum, PyVal.toZ,
      PyVal.getDF, hm0, e2, e3]
    rfl
  · intro h0 h1
    have e1 : q ≠ 0 := ne_of_gt h0
    have e2 : ¬ q < 0 := not_lt.mpr h0.le
    have e3 : ¬ 1 < q := not_lt.mpr h1
    simp [validate_input, resolve_sizes, pyTruth, PyVal.isNone, PyVal.isDF,
      PyVal.isSeries, PyVal.isInt, PyVal.isFloat, PyVal.toNum, PyVal.toZ,
      PyVal.getDF, e1, e2, e3]
    rfl
  · intro hm0 hml hmu
    have e2 : ¬ m < 0 := not_lt.mpr hml
    have e3 : ¬ (num_of_samples Xd : ℤ) < m := not_lt.mpr hmu
    simp [validate_input, resolve_sizes, pyTruth, PyVal.isNone, PyVal.isDF,
      PyVal.isSeries, PyVal.isInt, PyVal.isFloat, PyVal.toNum, PyVal.toZ,
      PyVal.getDF, hm0, e2, e3]
    rfl
  · intro hd
    have e1 : q ≠ 0 := by
      rcases hd with h | h
      · exact ne_of_lt h
      · exact ne_of_gt (lt_trans zero_lt_one h)
    have hv : validate_input npSqrt (.dfV Xd) .noneV (.floatV q) (.noneV : PyVal α β)
        (.intV 69) = .error .valueRangeTestSize := by
      rcases hd with h | h
      · simp [validate_input, resolve_sizes, pyTruth, PyVal.isNone, PyVal.isDF,
          PyVal.isSeries, PyVal.isInt, PyVal.isFloat, PyVal.toNum, PyVal.toZ,
          PyVal.getDF, e1, h]
        rfl
      · simp [validate_input, resolve_sizes, pyTruth, PyVal.isNone, PyVal.isDF,
          PyVal.isSeries, PyVal.isInt, PyVal.isFloat, PyVal.toNum, PyVal.toZ,
          PyVal.getDF, e1, h]
        rfl
    exact ⟨hv, by rw [callCore_of_validate_error npSqrt _ _ _ _ _ _ hv]⟩
  · intro hd
    have hn0 : (0 : ℤ) ≤ (num_of_samples Xd : ℤ) := Int.natCast_nonneg _
    have e1 : m ≠ 0 := by
      rcases hd with h | h
      · exact ne_of_lt h
      · exact ne_of_gt (lt_of_le_of_lt hn0 h)
    have hv : validate_input npSqrt (.dfV Xd) .noneV (.intV m) (.noneV : PyVal α β)
        (.intV 69) = .error .valueRangeTestSize := by
      rcases hd with h | h
      · simp [validate_input, resolve_sizes, pyTruth, PyVal.isNone, PyVal.isDF,
          PyVal.isSeries, PyVal.isInt, PyVal.isFloat, PyVal.toNum, PyVal.toZ,
          PyVal.getDF, e1, h]
        rfl
      · simp [validate_input, resolve_sizes, pyTruth, PyVal.isNone, PyVal.isDF,
          PyVal.isSeries, PyVal.isInt, PyVal.isFloat, PyVal.toNum, PyVal.toZ,
          PyVal.getDF, e1, h]
        rfl
    exact ⟨hv, by rw [callCore_of_validate_error npSqrt _ _ _ _ _ _ hv]⟩
  · intro hd
    have e1 : q ≠ 0 := by
      rcases hd with h | h
      · exact ne_of_lt h
      · exact ne_of_gt (lt_trans zero_lt_one h)
    have hv : validate_input npSqrt (.dfV Xd) .noneV (.noneV : PyVal α β) (.floatV q)
        (.intV 69) = .error .valueRangeTrainSize := by
      rcases hd with h | h
      · simp [validate_input, resolve_sizes, pyTruth, PyVal.isNone, PyVal.isDF,
          PyVal.isSeries, PyVal.isInt, PyVal.isFloat, PyVal.toNum, PyVal.toZ,
          PyVal.getDF, e1, h]
        rfl
      · simp [validate_input, resolve_sizes, pyTruth, PyVal.isNone, PyVal.isDF,
          PyVal.isSeries, PyVal.isInt, PyVal.isFloat, PyVal.toNum, PyVal.toZ,
          PyVal.getDF, e1, h]
        rfl
    exact ⟨hv, by rw [callCore_of_validate_error npSqrt _ _ _ _ _ _ hv]⟩
  · intro hd
    have hn0 : (0 : ℤ) ≤ (num_of_samples Xd : ℤ) := Int.natCast_nonneg _
    have e1 : m ≠ 0 := by
      rcases hd with h | h
      · exact ne_of_lt h
      · exact ne_of_gt (lt_of_le_of_lt hn0 h)
    have hv : validate_input npSqrt (.dfV Xd) .noneV (.noneV : PyVal α β) (.intV m)
        (.intV 69) = .error .valueRangeTrainSize := by
      rcases hd with h | h
      · simp [validate_input, resolve_sizes, pyTruth, PyVal.isNone, PyVal.isDF,
          PyVal.isSeries, PyVal.isInt, PyVal.isFloat, PyVal.toNum, PyVal.toZ,
          PyVal.getDF, e1, h]
        rfl
      · simp [validate_input, resolve_sizes, pyTruth, PyVal.isNone, PyVal.isDF,
          PyVal.isSeries, PyVal.isInt, PyVal.isFloat, PyVal.toNum, PyVal.toZ,
          PyVal.getDF, e1, h]
        rfl
    exact ⟨hv, by rw [callCore_of_validate_error npSqrt _ _ _ _ _ _ hv]⟩

theorem single_size_complemented_witness :
    (validate_input sqrtZero (.dfV Xten) .noneV (.floatV (3 / 10 : ℚ)) .noneV (.intV 69)
      = .ok (.floatV (3 / 10), .floatV (1 - 3 / 10)))
    ∧ num_of_samples X100 = 100
    ∧ (validate_input sqrtZero (.dfV X100) .noneV .noneV (.intV 10) (.intV 69)
      = .ok (.intV ((num_of_samples X100 : ℤ) - 10), .intV 10))
    ∧ (validate_input sqrtZero (.dfV Xten) .noneV (.floatV (3 / 2 : ℚ)) .noneV (.intV 69)
      = .error .valueRangeTestSize)
    ∧ (validate_input sqrtZero (.dfV Xten) .noneV (.floatV (-(1 / 2) : ℚ)) .noneV (.intV 69)
        = .error .valueRangeTestSize
      ∧ (callCore sqrtZero (.dfV Xten) .noneV (.floatV (-(1 / 2) : ℚ)) .noneV
          (.intV 69)).newDf = none)
    ∧ (validate_input sqrtZero (.dfV X100) .noneV (.intV 200) .noneV (.intV 69)
      = .error .valueRangeTestSize)
    ∧ (validate_input sqrtZero (.dfV Xten) .noneV .noneV (.floatV (3 / 2 : ℚ)) (.intV 69)
      = .error .valueRangeTrainSize)
    ∧ (validate_input sqrtZero (.dfV Xten) .noneV .noneV (.intV (-5)) (.intV 69)
        = .error .valueRangeTrainSize
      ∧ (callCore sqrtZero (.dfV Xten) .noneV .noneV (.intV (-5)) (.intV 69)).newDf
        = none) :=
  ⟨(single_size_complemented sqrtZero Xten (3 / 10 : ℚ) 0).1 (by norm_num) (by norm_num),
   by with_unfolding_all rfl,
   (single_size_complemented sqrtZero X100 (0 : ℚ) 10).2.2.2.1 (by norm_num) (by norm_num)
     (by with_unfolding_all decide),
   ((single_size_complemented sqrtZero Xten (3 / 2 : ℚ) 0).2.2.2.2.1
     (Or.inr (by norm_num))).1,
   (single_size_complemented sqrtZero Xten (-(1 / 2) : ℚ) 0).2.2.2.2.1
     (Or.inl (by norm_num)),
   ((single_size_complemented sqrtZero X100 (0 : ℚ) 200).2.2.2.2.2.1
     (Or.inr (by with_unfolding_all decide))).1,
   ((single_size_complemented sqrtZero Xten (3 / 2 : ℚ) 0).2.2.2.2.2.2.1
     (Or.inr (by norm_num))).1,
   (single_size_complemented sqrtZero Xten (0 : ℚ) (-5)).2.2.2.2.2.2.2
     (Or.inl (by norm_num))⟩

theorem exceptMap_error {γ δ : Type} (e : PyError) (f : γ → δ) :
    (f <$> (Except.error e : Except PyError γ)) = Except.error e := rfl

/-- C5: when neither size is supplied, the defaults depend on the presence of
the target - without `y` the sizes resolve to `(0.2, 0.8)`; with a row-aligned
target they resolve to `(1/sqrt(k), 1 - 1/sqrt(k))` where `k` is the number
of feature columns (stated over `ℝ` with `np.sqrt` read as the real square
root). -/
theorem default_sizes {β : Type} (Xd : DataFrame β) (ys : Series β)
    (hlen : ys.data.length = Xd.rows.length) :
    validate_input (β := β) (fun k => Real.sqrt (k : ℝ)) (.dfV Xd) .noneV .noneV .noneV
        (.intV 69)
      = .ok (.floatV (1 / 5 : ℝ), .floatV (4 / 5 : ℝ))
    ∧ validate_input (fun k => Real.sqrt (k : ℝ)) (.dfV Xd) (.seriesV ys) .noneV .noneV
        (.intV 69)
      = .ok (.floatV (1 / Real.sqrt (Xd.cols.length : ℝ)),
             .floatV (1 - 1 / Real.sqrt (Xd.cols.length : ℝ))) := by
  have e : ((num_of_samples Xd : ℤ)) = ((ys.data.length : ℤ)) := by
    exact_mod_cast hlen.symm
  constructor
  · simp [validate_input, resolve_sizes, pyTruth, pyShape0, PyVal.isNone, PyVal.isDF,
      PyVal.isSeries, PyVal.isInt, PyVal.isFloat, PyVal.getDF,
      exceptBind_ok, exceptBind_error, exceptThrow, exceptPure, exceptMap_error]
  · simp [validate_input, resolve_sizes, pyTruth, pyShape0, PyVal.isNone, PyVal.isDF,
      PyVal.isSeries, PyVal.isInt, PyVal.isFloat, PyVal.getDF, e,
      exceptBind_ok, exceptBind_error, exceptThrow, exceptPure, exceptMap_error]

theorem default_sizes_witness :
    validate_input (β := ℤ) (fun k => Real.sqrt (k : ℝ)) (.dfV Xten) .noneV .noneV .noneV
        (.intV 69)
      = .ok (.floatV (1 / 5 : ℝ), .floatV (4 / 5 : ℝ))
    ∧ validate_input (fun k => Real.sqrt (k : ℝ)) (.dfV Xten) (.seriesV yten) .noneV .noneV
        (.intV 69)
      = .ok (.floatV (1 / Real.sqrt (Xten.cols.length : ℝ)),
             .floatV (1 - 1 / Real.sqrt (Xten.cols.length : ℝ))) :=
  default_sizes Xten yten rfl

/-- C9 counterexample: a present target with no `.shape` attribute (here an
int) makes line 77 raise an AttributeError, not the type-mismatch error the
claim promises for every invalid target. -/
theorem scalar_target_attribute_error :
    (train_test_split sqrtZero freshQ [("X", .dfV Xten), ("y", .intV 5)]).1
      = .error .attributeError
    ∧ PyError.attributeError ≠ PyError.typeMismatchY := by
  exact ⟨rfl, by decide⟩

/-- C9 (amended): for a present target that has a row count (Series or
DataFrame), a count different from `X`'s raises the shape-mismatch error (the
shape check runs first); a DataFrame target with the right row count then
fails the Series type check; but a shapeless target (int or float) raises an
AttributeError at the `y.shape` access instead of the type-mismatch error. -/
theorem target_checks [LinearOrderedField α] (npSqrt : ℕ → α)
    (Xd : DataFrame β) (ts tr rs : PyVal α β) :
    (∀ s : Series β, s.data.length ≠ Xd.rows.length →
      validate_input npSqrt (.dfV Xd) (.seriesV s) ts tr rs = .error .shapeMismatchY)
    ∧ (∀ d : DataFrame β, d.rows.length ≠ Xd.rows.length →
      validate_input npSqrt (.dfV Xd) (.dfV d) ts tr rs = .error .shapeMismatchY)
    ∧ (∀ d : DataFrame β, d.rows.length = Xd.rows.length →
      validate_input npSqrt (.dfV Xd) (.dfV d) ts tr rs = .error .typeMismatchY)
    ∧ (∀ m : ℤ,
      validate_input npSqrt (.dfV Xd) (.intV m) ts tr rs = .error .attributeError)
    ∧ (∀ x : α,
      validate_input npSqrt (.dfV Xd) (.floatV x) ts tr rs = .error .attributeError) := by
  refine ⟨?_, ?_, ?_, fun m => rfl, fun x => rfl⟩
  · intro s hne
    have e : ((num_of_samples Xd : ℤ)) ≠ ((s.data.length : ℤ)) := by
      exact_mod_cast hne.symm
    simp [validate_input, pyShape0, PyVal.isNone, PyVal.isDF, PyVal.isSeries,
      PyVal.getDF, e, exceptBind_ok, exceptBind_error, exceptThrow, exceptPure,
      exceptMap_error]
  · intro d hne
    have e : ((num_of_samples Xd : ℤ)) ≠ ((d.rows.length : ℤ)) := by
      exact_mod_cast hne.symm
    simp [validate_input, pyShape0, PyVal.isNone, PyVal.isDF, PyVal.isSeries,
      PyVal.getDF, e, exceptBind_ok, exceptBind_error, exceptThrow, exceptPure,
      exceptMap_error]
  · intro d he
    have e : ((num_of_samples Xd : ℤ)) = ((d.rows.length : ℤ)) := by
      exact_mod_cast he.symm
    simp [validate_input, pyShape0, PyVal.isNone, PyVal.isDF, PyVal.isSeries,
      PyVal.getDF, e, exceptBind_ok, exceptBind_error, exceptThrow, exceptPure,
      exceptMap_error]

theorem target_checks_witness :
    validate_input sqrtZero (.dfV Xten) (.seriesV ⟨some "l", [1, 2, 3]⟩) .noneV .noneV
        (.intV 69) = .error .shapeMismatchY
    ∧ validate_input sqrtZero (.dfV Xten) (.dfV ⟨["c"], [[1], [2]]⟩) .noneV .noneV
        (.intV 69) = .error .shapeMismatchY
    ∧ validate_input sqrtZero (.dfV Xten) (.dfV Xten) .noneV .noneV (.intV 69)
        = .error .typeMismatchY
    ∧ validate_input sqrtZero (.dfV Xten) (.intV 5) .noneV .noneV (.intV 69)
        = .error .attributeError
    ∧ validate_input sqrtZero (.dfV Xten) (.floatV (1 / 2 : ℚ)) .noneV .noneV (.intV 69)
        = .error .attributeError :=
  ⟨(target_checks sqrtZero Xten .noneV .noneV (.intV 69)).1 ⟨some "l", [1, 2, 3]⟩
      (by decide),
   (target_checks sqrtZero Xten .noneV .noneV (.intV 69)).2.1 ⟨["c"], [[1], [2]]⟩
      (by decide),
   (target_checks sqrtZero Xten .noneV .noneV (.intV 69)).2.2.1 Xten rfl,
   (target_checks sqrtZero Xten .noneV .noneV (.intV 69)).2.2.2.1 5,
   (target_checks sqrtZero Xten .noneV .noneV (.intV 69)).2.2.2.2 (1 / 2 : ℚ)⟩

/-- C7 counterexample: the instance is not stateless across invocations. In
this run, a first call supplying only `test_size = 0.3` succeeds and stores
the sizes `(0.3, 0.7)` on the instance; a second call on the same instance
whose `params` omits both sizes then finds both stored fields truthy and
raises the type error of the both-given branch, while the same `params` on a
fresh instance succeeds with the documented defaults - so the outcome depends
on the earlier call, not on `params` alone. -/
theorem instance_state_leaks :
    (train_test_split sqrtZero freshQ
        [("X", .dfV Xten), ("test_size", .floatV (3 / 10 : ℚ))]).1 = .ok ()
    ∧ ((train_test_split sqrtZero freshQ
        [("X", .dfV Xten), ("test_size", .floatV (3 / 10 : ℚ))]).2.1).test_size
      = .floatV (3 / 10)
    ∧ ((train_test_split sqrtZero freshQ
        [("X", .dfV Xten), ("test_size", .floatV (3 / 10 : ℚ))]).2.1).train_size
      = .floatV (7 / 10)
    ∧ (train_test_split sqrtZero
        ((train_test_split sqrtZero freshQ
          [("X", .dfV Xten), ("test_size", .floatV (3 / 10 : ℚ))]).2.1)
        [("X", .dfV Xten)]).1
      = .error .typeMismatchTestSize
    ∧ (train_test_split sqrtZero freshQ [("X", .dfV Xten)]).1 = .ok () := by
  refine ⟨?_, ?_, ?_, ?_, ?_⟩
  · with_unfolding_all decide
  · with_unfolding_all decide
  · with_unfolding_all decide
  · with_unfolding_all decide
  · with_unfolding_all decide

/-- C7 (amended): the configuration outlives a call - when `params` omits
`test_size` and `train_size`, the call's outcome is computed from the sizes
already stored on the instance (which a previous call may have set, derived
or defaulted), not from the documented defaults; whether such a second call
raises or succeeds therefore depends on which sizes the earlier call left
behind. -/
theorem omitted_sizes_from_instance [LinearOrderedField α] [FloorRing α] [Inhabited β]
    (npSqrt : ℕ → α) (s0 : SplitState α β) (p : Params α β)
    (ht : findKey "test_size" p = none) (htr : findKey "train_size" p = none) :
    (train_test_split npSqrt s0 p).1
      = (callCore npSqrt (applyParams s0 p).X (applyParams s0 p).y s0.test_size
          s0.train_size (applyParams s0 p).random_state).result := by
  have h1 : (applyParams s0 p).test_size = s0.test_size
      ∧ (applyParams s0 p).train_size = s0.train_size := by
    cases hX : findKey "X" p <;> cases hy : findKey "y" p <;>
      cases hr : findKey "random_state" p <;>
        simp [applyParams, ht, htr, hX, hy, hr]
  simp only [train_test_split]
  rw [h1.1, h1.2]

theorem omitted_sizes_from_instance_witness :
    (train_test_split sqrtZero
        ((train_test_split sqrtZero freshQ
          [("X", .dfV Xten), ("test_size", .floatV (3 / 10 : ℚ))]).2.1)
        [("X", .dfV Xten)]).1
      = (callCore sqrtZero
          (applyParams ((train_test_split sqrtZero freshQ
            [("X", .dfV Xten), ("test_size", .floatV (3 / 10 : ℚ))]).2.1)
            [("X", .dfV Xten)]).X
          (applyParams ((train_test_split sqrtZero freshQ
            [("X", .dfV Xten), ("test_size", .floatV (3 / 10 : ℚ))]).2.1)
            [("X", .dfV Xten)]).y
          ((train_test_split sqrtZero freshQ
            [("X", .dfV Xten), ("test_size", .floatV (3 / 10 : ℚ))]).2.1).test_size
          ((train_test_split sqrtZero freshQ
            [("X", .dfV Xten), ("test_size", .floatV (3 / 10 : ℚ))]).2.1).train_size
          (applyParams ((train_test_split sqrtZero freshQ
            [("X", .dfV Xten), ("test_size", .floatV (3 / 10 : ℚ))]).2.1)
            [("X", .dfV Xten)]).random_state).result :=
  omitted_sizes_from_instance sqrtZero
    ((train_test_split sqrtZero freshQ
      [("X", .dfV Xten), ("test_size", .floatV (3 / 10 : ℚ))]).2.1)
    [("X", .dfV Xten)] rfl rfl

/-- C1: evaluating the code at the spec's scenario (10x2 `X`, named 10-row
`y`, `test_size = 0.3`, `train_size = 0.7`, `random_state = 0`): instead of
validating and splitting 7/3, the call raises the type error of lines 89-92,
whose condition `not isinstance(v, int) or not isinstance(v, float)` no
value satisfies both disjunct-negations of, so every call that supplies both
sizes fails there. -/
theorem scenario_both_sizes_type_error :
    (train_test_split sqrtZero freshQ
        [("X", .dfV Xten), ("y", .seriesV yten), ("test_size", .floatV (3 / 10 : ℚ)),
         ("train_size", .floatV (7 / 10)), ("random_state", .intV 0)]).1
      = .error .typeMismatchTestSize := by
  with_unfolding_all decide
